import Mathlib

/-!
Verification of the pyzeebe worker/client specification.

The registry (router), task, exception-handler and job-execution layers are
modelled from the specification (the repository ships only their tests and the
`ZeebeClient` facade), and the client facade is translated from
`pyzeebe/client/client.py`.  Decorators and custom exception handlers are
identified by numeric ids, and job execution is modelled as the list of
observable events (decorator invocations, handler invocation, log lines and
terminal gateway operations) it produces.
-/

set_option autoImplicit false

namespace PyZeebe

/-- A JSON object of process variables, modelled shallowly as an association
list from variable names to (opaque, string-rendered) values. -/
abbrev Vars := List (String × String)

/-- Modelled from the spec: exceptions a handler can raise.  `BusinessError`
(`pyzeebe.errors`, not under `src/`) carries an error code; every other Python
exception is collapsed to its message. -/
inductive Exc where
  | businessError (errorCode : String) (message : String)
  | otherError (message : String)
  deriving DecidableEq, Repr

/-- The string form `str(exc)` of an exception. -/
def Exc.toMessage : Exc → String
  | .businessError _ message => message
  | .otherError message => message

/-- Result of invoking a user handler on a job: a returned mapping of output
variables, or a raised exception. -/
inductive HandlerResult where
  | ok (output : Vars)
  | raise (e : Exc)
  deriving DecidableEq, Repr

/-- Modelled from the spec: the per-activation `Job` record (`pyzeebe.job.job`,
not under `src/`), with the fields of the spec's data model. -/
structure Job where
  key : Int
  type : String
  processInstanceKey : Int
  retries : Int
  deadline : Int
  vars : Vars
  customHeaders : List (String × String)
  worker : String
  deriving DecidableEq, Repr

/-- Modelled from the spec: a user handler callable, together with its declared
parameter names (the spec derives `variables_to_fetch` from them by
introspection). -/
structure HandlerFunction where
  params : List String
  run : Job → HandlerResult

/-- Observable events of executing a job: decorator invocations, the handler
invocation, custom exception-handler invocations, warning log lines, and the
three terminal gateway reports. -/
inductive Event where
  | decoratorCalled (id : Nat)
  | handlerInvoked
  | excHandlerInvoked (id : Nat)
  | logWarning
  | completeJob (key : Int) (output : Vars)
  | failJob (key : Int) (retries : Int) (message : String)
  | throwError (key : Int) (errorCode : String) (message : String)
  deriving DecidableEq, Repr

def Event.isFailJob : Event → Bool
  | .failJob _ _ _ => true
  | _ => false

def Event.isThrowError : Event → Bool
  | .throwError _ _ _ => true
  | _ => false

def Event.isCompleteJob : Event → Bool
  | .completeJob _ _ => true
  | _ => false

def Event.isLogWarning : Event → Bool
  | .logWarning => true
  | _ => false

def Event.isExcHandlerInvoked : Event → Bool
  | .excHandlerInvoked _ => true
  | _ => false

namespace JobController

/-- Modelled from the spec: `set_success_status(variables)` becomes
`complete_job(key, variables)`. -/
def setSuccessStatus (job : Job) (output : Vars) : Event :=
  .completeJob job.key output

/-- Modelled from the spec: `set_failure_status(message)` becomes
`fail_job(key, retries=job.retries, message)`; the retries counter is passed
through unchanged. -/
def setFailureStatus (job : Job) (message : String) : Event :=
  .failJob job.key job.retries message

/-- Modelled from the spec: `set_error_status(message, error_code)` becomes
`throw_error(key, error_code, message)`. -/
def setErrorStatus (job : Job) (message : String) (errorCode : String) : Event :=
  .throwError job.key errorCode message

end JobController

/-- An exception handler: the library default, or a user-supplied callable
identified by a numeric id. -/
inductive ExceptionHandler where
  | default
  | custom (id : Nat)
  deriving DecidableEq, Repr

/-- Modelled from the spec: the default exception handler
(`pyzeebe.task.exception_handler.default_exception_handler`, not under
`src/`).  It logs one warning; for a `BusinessError` it reports the error
status with the carried error code (becoming `throw_error`), and for every
other exception it reports the failure status with the string form of the
exception (becoming `fail_job` with the job's unchanged retries). -/
def default_exception_handler (e : Exc) (job : Job) : List Event :=
  match e with
  | .businessError errorCode message =>
      [Event.logWarning, JobController.setErrorStatus job message errorCode]
  | .otherError message =>
      [Event.logWarning, JobController.setFailureStatus job (Exc.toMessage (.otherError message))]

/-- Run an exception handler on a raised exception: the default handler follows
`default_exception_handler`, a custom handler is observed as one invocation
event. -/
def runExceptionHandler (h : ExceptionHandler) (e : Exc) (job : Job) : List Event :=
  match h with
  | .default => default_exception_handler e job
  | .custom id => [Event.excHandlerInvoked id]

/-- Modelled from the spec: the per-task configuration (`pyzeebe.task.task_config`,
not under `src/`). -/
structure TaskConfig where
  type : String
  exceptionHandler : Option ExceptionHandler
  timeoutMs : Int
  maxJobsToActivate : Int
  maxRunningJobs : Int
  variablesToFetch : List String
  singleValue : Bool

/-- Modelled from the spec: a task — configuration, the original handler
callable, and before/after decorator chains (decorators are identified by
numeric ids). -/
structure Task where
  config : TaskConfig
  originalFunction : HandlerFunction
  beforeChain : List Nat
  afterChain : List Nat

/-- The task's registered job type. -/
def Task.type (t : Task) : String := t.config.type

/-- Modelled from the spec: the reserved parameter names bound to the `Job` and
`JobController` context objects, excluded from the derived variable list. -/
def reservedParameters : List String := ["job", "job_controller"]

/-- Modelled from the spec: derive `variables_to_fetch` from the handler's
declared parameter names, excluding the reserved context parameters,
preserving declaration order. -/
def getParametersFromFunction (fn : HandlerFunction) : List String :=
  fn.params.filter (fun p => !(reservedParameters.contains p))

/-- Errors raised by registry operations. -/
inductive RegistryError where
  | taskNotFoundError
  | duplicateTaskTypeError
  deriving DecidableEq, Repr

/-- Modelled from the spec: the task registry `ZeebeTaskRouter`
(`pyzeebe.worker.task_router`, not under `src/`): an ordered sequence of tasks
plus registry-level `_before` / `_after` decorator lists and an optional
registry-level `_exception_handler`.  The worker (`ZeebeWorker`) extends the
same registry structure. -/
structure ZeebeTaskRouter where
  tasks : List Task
  beforeDecorators : List Nat
  afterDecorators : List Nat
  exceptionHandler : Option ExceptionHandler

/-- Modelled from the spec: `ZeebeWorker` extends `ZeebeTaskRouter` — it shares
the registry state and operations. -/
abbrev ZeebeWorker := ZeebeTaskRouter

namespace ZeebeTaskRouter

/-- A fresh registry with no tasks, no decorators and no exception handler. -/
def empty : ZeebeTaskRouter :=
  { tasks := [], beforeDecorators := [], afterDecorators := [], exceptionHandler := none }

/-- Modelled from the spec: `get_task(type)` returns the registered task of
that type, failing with `TaskNotFoundError` when absent. -/
def getTask (r : ZeebeTaskRouter) (taskType : String) : Except RegistryError Task :=
  match r.tasks.find? (fun t => t.config.type == taskType) with
  | some t => .ok t
  | none => .error .taskNotFoundError

/-- Modelled from the spec: `_add_task` appends a built task, failing with
`DuplicateTaskTypeError` when a task of the same type is already registered. -/
def addTask (r : ZeebeTaskRouter) (t : Task) : Except RegistryError ZeebeTaskRouter :=
  if r.tasks.any (fun t0 => t0.config.type == t.config.type) then
    .error .duplicateTaskTypeError
  else
    .ok { r with tasks := r.tasks ++ [t] }

/-- Modelled from the spec: build the `TaskConfig` at registration time —
the task inherits the registry's exception handler when it did not set its
own, and `variables_to_fetch` is derived from the handler's parameters when
not given explicitly. -/
def buildTaskConfig (routerEH : Option ExceptionHandler) (taskType : String)
    (fn : HandlerFunction) (variablesToFetch : Option (List String))
    (taskEH : Option ExceptionHandler) : TaskConfig :=
  { type := taskType
    exceptionHandler :=
      match taskEH with
      | some h => some h
      | none => routerEH
    timeoutMs := 10000
    maxJobsToActivate := 32
    maxRunningJobs := 32
    variablesToFetch :=
      match variablesToFetch with
      | some vs => vs
      | none => getParametersFromFunction fn
    singleValue := false }

/-- Modelled from the spec: build a task at registration time; its own
decorator chains start empty (registry chains are merged at inclusion time). -/
def buildTask (routerEH : Option ExceptionHandler) (taskType : String)
    (fn : HandlerFunction) (variablesToFetch : Option (List String))
    (taskEH : Option ExceptionHandler) : Task :=
  { config := buildTaskConfig routerEH taskType fn variablesToFetch taskEH
    originalFunction := fn
    beforeChain := []
    afterChain := [] }

/-- Modelled from the spec: the `task(...)` decorator — builds the task from
the handler and registers it, rejecting duplicates. -/
def task (r : ZeebeTaskRouter) (taskType : String) (fn : HandlerFunction)
    (variablesToFetch : Option (List String)) (taskEH : Option ExceptionHandler) :
    Except RegistryError ZeebeTaskRouter :=
  r.addTask (buildTask r.exceptionHandler taskType fn variablesToFetch taskEH)

/-- Modelled from the spec: `remove_task(type)` removes and returns the task of
that type, failing with `TaskNotFoundError` when absent. -/
def removeTask (r : ZeebeTaskRouter) (taskType : String) :
    Except RegistryError (Task × ZeebeTaskRouter) :=
  match r.tasks.find? (fun t => t.config.type == taskType) with
  | some t =>
      .ok (t, { r with tasks := r.tasks.filter (fun t0 => !(t0.config.type == taskType)) })
  | none => .error .taskNotFoundError

/-- Modelled from the spec: `before(decorator)` appends a before-decorator to
the registry. -/
def before (r : ZeebeTaskRouter) (d : Nat) : ZeebeTaskRouter :=
  { r with beforeDecorators := r.beforeDecorators ++ [d] }

/-- Modelled from the spec: `after(decorator)` appends an after-decorator to
the registry. -/
def after (r : ZeebeTaskRouter) (d : Nat) : ZeebeTaskRouter :=
  { r with afterDecorators := r.afterDecorators ++ [d] }

/-- Modelled from the spec: `exception_handler(fn)` sets the registry's
exception handler. -/
def setExceptionHandler (r : ZeebeTaskRouter) (h : ExceptionHandler) : ZeebeTaskRouter :=
  { r with exceptionHandler := some h }

/-- Modelled from the spec: at `include_router` time the parent's and the
child's decorator chains are merged into the task (run order: parent-before,
child-before, task-before, handler, task-after, child-after, parent-after),
and the task falls back to the parent's exception handler when neither it nor
the child registry set one. -/
def mergeAtInclusion (parent child : ZeebeTaskRouter) (t : Task) : Task :=
  { t with
    beforeChain := parent.beforeDecorators ++ child.beforeDecorators ++ t.beforeChain
    afterChain := t.afterChain ++ child.afterDecorators ++ parent.afterDecorators
    config := { t.config with
      exceptionHandler :=
        match t.config.exceptionHandler with
        | some h => some h
        | none => parent.exceptionHandler } }

/-- Modelled from the spec: `include_router` copies the child's tasks into the
parent (a flat merge), applying the chain merge to each task and rejecting
duplicate types. -/
def includeRouter (parent child : ZeebeTaskRouter) : Except RegistryError ZeebeTaskRouter :=
  child.tasks.foldlM (fun acc t => acc.addTask (mergeAtInclusion parent child t)) parent

end ZeebeTaskRouter

/-- The exception handler effective for a task at execution time: its resolved
configured handler, or the library default. -/
def Task.effectiveExceptionHandler (t : Task) : ExceptionHandler :=
  t.config.exceptionHandler.getD .default

/-- Modelled from the spec: the task's `job_handler(job, controller)` entry
point, as the list of observable events of executing one job — the
before-chain, the handler invocation, the outcome report (completion for a
returned mapping, exception-handler routing for a raised exception), then the
after-chain. -/
def Task.jobHandler (t : Task) (job : Job) : List Event :=
  let beforeEvents := t.beforeChain.map Event.decoratorCalled
  let mainEvents :=
    match t.originalFunction.run job with
    | .ok output => [Event.handlerInvoked, JobController.setSuccessStatus job output]
    | .raise e => Event.handlerInvoked :: runExceptionHandler t.effectiveExceptionHandler e job
  beforeEvents ++ mainEvents ++ t.afterChain.map Event.decoratorCalled


/-! ### Registration lemmas -/

/-- After a successful registration, `get_task` on the registered type returns
exactly the task built at registration time. -/
theorem getTask_after_task (r r' : ZeebeTaskRouter) (taskType : String)
    (fn : HandlerFunction) (vtf : Option (List String)) (taskEH : Option ExceptionHandler)
    (hreg : r.task taskType fn vtf taskEH = Except.ok r') :
    r'.getTask taskType = Except.ok (ZeebeTaskRouter.buildTask r.exceptionHandler taskType fn vtf taskEH) := by
  unfold ZeebeTaskRouter.task ZeebeTaskRouter.addTask at hreg
  split at hreg
  · exact absurd hreg (by simp)
  case isFalse hdup =>
    injection hreg with hreg
    subst hreg
    unfold ZeebeTaskRouter.getTask
    simp only [ZeebeTaskRouter.buildTask, ZeebeTaskRouter.buildTaskConfig] at hdup
    have hnone : r.tasks.find? (fun t => t.config.type == taskType) = none := by
      rw [List.find?_eq_none]
      intro x hx hpx
      exact hdup (List.any_eq_true.mpr ⟨x, hx, hpx⟩)
    simp [ZeebeTaskRouter.buildTask, ZeebeTaskRouter.buildTaskConfig, List.find?_append, hnone,
      List.find?_cons]

/-! ### C2: derived variables_to_fetch -/

/-- C2: for every handler registered without an explicit `variables_to_fetch`,
the resulting task's `variables_to_fetch` equals exactly the handler's declared
parameter names, in declaration order, with the reserved parameter names for
`Job` and `JobController` excluded. -/
theorem C2_variables_to_fetch_derived (r r' : ZeebeTaskRouter) (taskType : String)
    (fn : HandlerFunction) (taskEH : Option ExceptionHandler) (tk : Task)
    (hreg : r.task taskType fn none taskEH = Except.ok r')
    (hget : r'.getTask taskType = Except.ok tk) :
    tk.config.variablesToFetch
      = fn.params.filter (fun p => !(p == "job" || p == "job_controller")) := by
  have h := getTask_after_task r r' taskType fn none taskEH hreg
  rw [hget] at h
  injection h with h
  subst h
  show getParametersFromFunction fn = _
  unfold getParametersFromFunction
  apply List.filter_congr
  intro p _
  by_cases h1 : p = "job" <;> by_cases h2 : p = "job_controller" <;>
    simp [reservedParameters, List.contains, h1, h2]

/-- Concrete handler used by witnesses: two declared parameters `x` and `job`. -/
def fnSimple : HandlerFunction :=
  { params := ["x", "job"], run := fun _ => HandlerResult.ok [] }

/-- The registry obtained by registering `fnSimple` under type `t` on a fresh
registry. -/
def routerT : ZeebeTaskRouter :=
  { tasks := [ZeebeTaskRouter.buildTask none "t" fnSimple none none]
    beforeDecorators := []
    afterDecorators := []
    exceptionHandler := none }

/-- Witness for C2 at a concrete registration. -/
theorem C2_variables_to_fetch_derived_witness :
    (ZeebeTaskRouter.buildTask none "t" fnSimple none none).config.variablesToFetch
      = fnSimple.params.filter (fun p => !(p == "job" || p == "job_controller")) :=
  C2_variables_to_fetch_derived ZeebeTaskRouter.empty routerT "t" fnSimple none
    (ZeebeTaskRouter.buildTask none "t" fnSimple none none) rfl rfl

/-! ### C8: exception handler inheritance at registration time -/

/-- C8: a task registered on a router without its own exception handler, after
the router's exception handler was set, carries the router's handler in its
configuration. -/
theorem C8_task_inherits_exception_handler (r r' : ZeebeTaskRouter) (taskType : String)
    (fn : HandlerFunction) (h : ExceptionHandler) (tk : Task)
    (hreg : (r.setExceptionHandler h).task taskType fn none none = Except.ok r')
    (hget : r'.getTask taskType = Except.ok tk) :
    tk.config.exceptionHandler = some h := by
  have hx := getTask_after_task (r.setExceptionHandler h) r' taskType fn none none hreg
  rw [hget] at hx
  injection hx with hx
  subst hx
  rfl

/-- The registry obtained by setting exception handler `custom 7` on a fresh
registry and then registering `fnSimple` under type `t`. -/
def routerTEH : ZeebeTaskRouter :=
  { tasks := [ZeebeTaskRouter.buildTask (some (ExceptionHandler.custom 7)) "t" fnSimple none none]
    beforeDecorators := []
    afterDecorators := []
    exceptionHandler := some (ExceptionHandler.custom 7) }

/-- Witness for C8 at a concrete registration. -/
theorem C8_task_inherits_exception_handler_witness :
    (ZeebeTaskRouter.buildTask (some (ExceptionHandler.custom 7)) "t" fnSimple none none).config.exceptionHandler
      = some (ExceptionHandler.custom 7) :=
  C8_task_inherits_exception_handler ZeebeTaskRouter.empty routerTEH "t" fnSimple
    (ExceptionHandler.custom 7)
    (ZeebeTaskRouter.buildTask (some (ExceptionHandler.custom 7)) "t" fnSimple none none) rfl rfl


/-! ### Inclusion lemmas -/

/-- Registering on a registry with no tasks yields the registry extended with
exactly the built task. -/
theorem task_on_empty (r : ZeebeTaskRouter) (taskType : String) (fn : HandlerFunction)
    (vtf : Option (List String)) (taskEH : Option ExceptionHandler) (r1 : ZeebeTaskRouter)
    (hr : r.tasks = [])
    (hreg : r.task taskType fn vtf taskEH = Except.ok r1) :
    r1 = { r with tasks := [ZeebeTaskRouter.buildTask r.exceptionHandler taskType fn vtf taskEH] } := by
  unfold ZeebeTaskRouter.task ZeebeTaskRouter.addTask at hreg
  rw [hr] at hreg
  simp only [List.any_nil, Bool.false_eq_true, if_false, List.nil_append] at hreg
  injection hreg with hreg
  exact hreg.symm

/-- Including a one-task child router into a parent with no tasks yields the
parent holding exactly the merged task. -/
theorem includeRouter_single (p c : ZeebeTaskRouter) (t : Task) (w : ZeebeTaskRouter)
    (hp : p.tasks = []) (hc : c.tasks = [t])
    (hinc : p.includeRouter c = Except.ok w) :
    w = { p with tasks := [ZeebeTaskRouter.mergeAtInclusion p c t] } := by
  unfold ZeebeTaskRouter.includeRouter at hinc
  rw [hc] at hinc
  simp only [List.foldlM, ZeebeTaskRouter.addTask, hp, List.any_nil, Bool.false_eq_true,
    if_false, List.nil_append, bind, Except.bind, pure, Except.pure] at hinc
  injection hinc with hinc
  exact hinc.symm

/-- Looking a type up in a registry holding exactly one task of that type
returns that task. -/
theorem getTask_single (w : ZeebeTaskRouter) (t : Task) (taskType : String) (tk : Task)
    (hw : w.tasks = [t]) (hty : t.config.type = taskType)
    (hget : w.getTask taskType = Except.ok tk) : tk = t := by
  unfold ZeebeTaskRouter.getTask at hget
  rw [hw] at hget
  simp only [List.find?, hty, beq_self_eq_true] at hget
  injection hget with hget
  exact hget.symm

/-- A list of decorator-invocation events contains no exception-handler
invocation. -/
theorem count_excHandler_map_decorator (l : List Nat) (i : Nat) :
    (l.map Event.decoratorCalled).count (Event.excHandlerInvoked i) = 0 := by
  rw [List.count_eq_zero]
  intro h
  rcases List.mem_map.mp h with ⟨j, _, hj⟩
  exact Event.noConfusion hj

/-- Exception-handler output never contains decorator-invocation events. -/
theorem count_decorator_runExceptionHandler (h : ExceptionHandler) (e : Exc) (job : Job) (d : Nat) :
    (runExceptionHandler h e job).count (Event.decoratorCalled d) = 0 := by
  cases h <;> cases e <;>
    simp [runExceptionHandler, default_exception_handler, JobController.setErrorStatus,
      JobController.setFailureStatus, List.count_cons]

/-! ### C3: closest-first exception handler resolution -/

/-- C3: when the router that registered the task and the worker both set an
exception handler and the handler raises a non-business exception, running the
included task's `job_handler` invokes the router's handler exactly once and
never invokes the worker's handler. -/
theorem C3_router_handler_wins (r0 w0 r1 w1 : ZeebeTaskRouter) (taskType : String)
    (fn : HandlerFunction) (job : Job) (msg : String) (rid wid : Nat) (tk : Task)
    (hr0 : r0.tasks = []) (hw0 : w0.tasks = [])
    (hne : rid ≠ wid)
    (hrun : fn.run job = HandlerResult.raise (Exc.otherError msg))
    (hreg : (r0.setExceptionHandler (ExceptionHandler.custom rid)).task taskType fn none none
      = Except.ok r1)
    (hinc : (w0.setExceptionHandler (ExceptionHandler.custom wid)).includeRouter r1 = Except.ok w1)
    (hget : w1.getTask taskType = Except.ok tk) :
    (tk.jobHandler job).count (Event.excHandlerInvoked rid) = 1
    ∧ (tk.jobHandler job).count (Event.excHandlerInvoked wid) = 0 := by
  have h1 := task_on_empty (r0.setExceptionHandler (ExceptionHandler.custom rid))
    taskType fn none none r1 hr0 hreg
  subst h1
  have h2 := includeRouter_single (w0.setExceptionHandler (ExceptionHandler.custom wid))
    _ _ w1 hw0 rfl hinc
  subst h2
  have h3 := getTask_single _ _ taskType tk rfl rfl hget
  subst h3
  constructor <;>
    simp [Task.jobHandler, ZeebeTaskRouter.mergeAtInclusion, ZeebeTaskRouter.buildTask,
      ZeebeTaskRouter.buildTaskConfig, ZeebeTaskRouter.setExceptionHandler,
      Task.effectiveExceptionHandler, hrun, runExceptionHandler, List.count_append,
      count_excHandler_map_decorator, List.count_cons, hne]

/-- Concrete handler used by witnesses: raises a generic (non-business)
exception. -/
def fnErr : HandlerFunction :=
  { params := [], run := fun _ => HandlerResult.raise (Exc.otherError "boom") }

/-- A concrete job used by witnesses. -/
def job0 : Job :=
  { key := 1, type := "t", processInstanceKey := 2, retries := 3, deadline := 0,
    vars := [], customHeaders := [], worker := "w" }

/-- The child router of the C3 witness: exception handler `custom 1`, one task
of type `t` registered after the handler was set. -/
def r1C3 : ZeebeTaskRouter :=
  { tasks := [ZeebeTaskRouter.buildTask (some (ExceptionHandler.custom 1)) "t" fnErr none none]
    beforeDecorators := []
    afterDecorators := []
    exceptionHandler := some (ExceptionHandler.custom 1) }

/-- The parent worker of the C3 witness: exception handler `custom 2`, no
tasks. -/
def parentC3 : ZeebeTaskRouter :=
  { tasks := []
    beforeDecorators := []
    afterDecorators := []
    exceptionHandler := some (ExceptionHandler.custom 2) }

/-- The task of the C3 witness as included into the parent. -/
def tkC3 : Task :=
  ZeebeTaskRouter.mergeAtInclusion parentC3 r1C3
    (ZeebeTaskRouter.buildTask (some (ExceptionHandler.custom 1)) "t" fnErr none none)

/-- Witness for C3 at a concrete router/worker pair. -/
theorem C3_router_handler_wins_witness :
    (tkC3.jobHandler job0).count (Event.excHandlerInvoked 1) = 1
    ∧ (tkC3.jobHandler job0).count (Event.excHandlerInvoked 2) = 0 :=
  C3_router_handler_wins ZeebeTaskRouter.empty ZeebeTaskRouter.empty r1C3
    { parentC3 with tasks := [tkC3] } "t" fnErr job0 "boom" 1 2 tkC3 rfl rfl
    (by decide) rfl rfl rfl rfl

/-! ### C5: BusinessError becomes throw_error -/

/-- C5: for a job whose handler raises `BusinessError(code)` on a task with the
default exception handling, the reported outcome is exactly one `throw_error`
carrying that error code, and no `fail_job` is ever issued. -/
theorem C5_business_error_throw_error (r r1 : ZeebeTaskRouter) (taskType : String)
    (fn : HandlerFunction) (job : Job) (code msg : String) (tk : Task)
    (hEH : r.exceptionHandler = none)
    (hrun : fn.run job = HandlerResult.raise (Exc.businessError code msg))
    (hreg : r.task taskType fn none none = Except.ok r1)
    (hget : r1.getTask taskType = Except.ok tk) :
    (tk.jobHandler job).filter Event.isThrowError = [Event.throwError job.key code msg]
    ∧ (tk.jobHandler job).countP Event.isFailJob = 0 := by
  have hx := getTask_after_task r r1 taskType fn none none hreg
  rw [hget] at hx
  injection hx with hx
  subst hx
  constructor <;>
    simp [Task.jobHandler, ZeebeTaskRouter.buildTask, ZeebeTaskRouter.buildTaskConfig,
      Task.effectiveExceptionHandler, hEH, hrun, runExceptionHandler, default_exception_handler,
      JobController.setErrorStatus, List.filter, List.countP_cons, List.countP_nil,
      Event.isThrowError, Event.isFailJob]

/-- Concrete handler used by witnesses: raises `BusinessError("E_NEG")`. -/
def fnBiz : HandlerFunction :=
  { params := [], run := fun _ => HandlerResult.raise (Exc.businessError "E_NEG" "neg") }

/-- The registry of the C5 witness: one task of type `t` with the
business-error-raising handler. -/
def routerBiz : ZeebeTaskRouter :=
  { tasks := [ZeebeTaskRouter.buildTask none "t" fnBiz none none]
    beforeDecorators := []
    afterDecorators := []
    exceptionHandler := none }

/-- Witness for C5 at a concrete registration and job. -/
theorem C5_business_error_throw_error_witness :
    (((ZeebeTaskRouter.buildTask none "t" fnBiz none none).jobHandler job0).filter
        Event.isThrowError = [Event.throwError job0.key "E_NEG" "neg"])
    ∧ ((ZeebeTaskRouter.buildTask none "t" fnBiz none none).jobHandler job0).countP
        Event.isFailJob = 0 :=
  C5_business_error_throw_error ZeebeTaskRouter.empty routerBiz "t" fnBiz job0 "E_NEG" "neg"
    (ZeebeTaskRouter.buildTask none "t" fnBiz none none) rfl rfl rfl rfl


/-! ### C7: decorators are merged at inclusion time -/

/-- C7: before/after decorators added to the router or to the worker after the
task was registered (but before inclusion) are still each invoked exactly once
when the included task's `job_handler` runs one job. -/
theorem C7_decorators_merged_at_inclusion (r0 w0 r1 w1 : ZeebeTaskRouter) (taskType : String)
    (fn : HandlerFunction) (job : Job) (d1 d2 d3 d4 : Nat) (tk : Task)
    (hr0 : r0.tasks = []) (hr0b : r0.beforeDecorators = []) (hr0a : r0.afterDecorators = [])
    (hw0 : w0.tasks = []) (hw0b : w0.beforeDecorators = []) (hw0a : w0.afterDecorators = [])
    (h12 : d1 ≠ d2) (h13 : d1 ≠ d3) (h14 : d1 ≠ d4)
    (h23 : d2 ≠ d3) (h24 : d2 ≠ d4) (h34 : d3 ≠ d4)
    (hreg : r0.task taskType fn none none = Except.ok r1)
    (hinc : ((w0.before d3).after d4).includeRouter ((r1.before d1).after d2) = Except.ok w1)
    (hget : w1.getTask taskType = Except.ok tk) :
    (tk.jobHandler job).count (Event.decoratorCalled d1) = 1
    ∧ (tk.jobHandler job).count (Event.decoratorCalled d2) = 1
    ∧ (tk.jobHandler job).count (Event.decoratorCalled d3) = 1
    ∧ (tk.jobHandler job).count (Event.decoratorCalled d4) = 1 := by
  have h1 := task_on_empty r0 taskType fn none none r1 hr0 hreg
  subst h1
  have h2 := includeRouter_single ((w0.before d3).after d4) _ _ w1 hw0 rfl hinc
  subst h2
  have h3 := getTask_single _ _ taskType tk rfl rfl hget
  subst h3
  cases hcase : fn.run job with
  | ok out =>
    refine ⟨?_, ?_, ?_, ?_⟩ <;>
      simp [Task.jobHandler, ZeebeTaskRouter.mergeAtInclusion, ZeebeTaskRouter.buildTask,
        ZeebeTaskRouter.buildTaskConfig, ZeebeTaskRouter.before, ZeebeTaskRouter.after,
        hr0b, hr0a, hw0b, hw0a, hcase, JobController.setSuccessStatus,
        List.count_append, List.count_cons, h12, h13, h14, h23, h24, h34,
        Ne.symm h12, Ne.symm h13, Ne.symm h14, Ne.symm h23, Ne.symm h24, Ne.symm h34]
  | raise e =>
    refine ⟨?_, ?_, ?_, ?_⟩ <;>
      simp [Task.jobHandler, ZeebeTaskRouter.mergeAtInclusion, ZeebeTaskRouter.buildTask,
        ZeebeTaskRouter.buildTaskConfig, ZeebeTaskRouter.before, ZeebeTaskRouter.after,
        hr0b, hr0a, hw0b, hw0a, hcase,
        List.count_append, List.count_cons, count_decorator_runExceptionHandler,
        h12, h13, h14, h23, h24, h34,
        Ne.symm h12, Ne.symm h13, Ne.symm h14, Ne.symm h23, Ne.symm h24, Ne.symm h34]

/-- Concrete handler used by witnesses: returns an empty mapping. -/
def fnOk : HandlerFunction :=
  { params := [], run := fun _ => HandlerResult.ok [] }

/-- The child router of the C7 witness before its decorators were added. -/
def r1C7 : ZeebeTaskRouter :=
  { tasks := [ZeebeTaskRouter.buildTask none "t" fnOk none none]
    beforeDecorators := []
    afterDecorators := []
    exceptionHandler := none }

/-- The parent worker of the C7 witness after its decorators were added. -/
def parentC7 : ZeebeTaskRouter :=
  { tasks := [], beforeDecorators := [3], afterDecorators := [4], exceptionHandler := none }

/-- The child router of the C7 witness after its decorators were added. -/
def childC7 : ZeebeTaskRouter :=
  { tasks := [ZeebeTaskRouter.buildTask none "t" fnOk none none]
    beforeDecorators := [1]
    afterDecorators := [2]
    exceptionHandler := none }

/-- The task of the C7 witness as included into the parent. -/
def tkC7 : Task :=
  ZeebeTaskRouter.mergeAtInclusion parentC7 childC7
    (ZeebeTaskRouter.buildTask none "t" fnOk none none)

/-- Witness for C7 at a concrete router/worker pair with four decorators. -/
theorem C7_decorators_merged_at_inclusion_witness :
    (tkC7.jobHandler job0).count (Event.decoratorCalled 1) = 1
    ∧ (tkC7.jobHandler job0).count (Event.decoratorCalled 2) = 1
    ∧ (tkC7.jobHandler job0).count (Event.decoratorCalled 3) = 1
    ∧ (tkC7.jobHandler job0).count (Event.decoratorCalled 4) = 1 :=
  C7_decorators_merged_at_inclusion ZeebeTaskRouter.empty ZeebeTaskRouter.empty r1C7
    { parentC7 with tasks := [tkC7] } "t" fnOk job0 1 2 3 4 tkC7
    rfl rfl rfl rfl rfl rfl
    (by decide) (by decide) (by decide) (by decide) (by decide) (by decide)
    rfl rfl rfl

/-! ### C4: the default exception handler (corrected) -/

/-- Counterexample to C4 as stated: for a `BusinessError` the default exception
handler does not call `set_failure_status` (no `fail_job` is produced); it
reports the error status (a `throw_error`) instead. -/
theorem C4_default_handler_counterexample :
    default_exception_handler (Exc.businessError "custom-error-code" "boom") job0
      = [Event.logWarning, Event.throwError 1 "custom-error-code" "boom"]
    ∧ (default_exception_handler (Exc.businessError "custom-error-code" "boom") job0).countP
        Event.isFailJob = 0 := by
  constructor <;> rfl

/-- C4 (amended): for every non-`BusinessError` exception and every job, the
default exception handler logs exactly one warning and calls
`set_failure_status` exactly once, with the string form of the exception and
the job's unchanged retries. -/
theorem C4_default_handler_amended (msg : String) (job : Job) :
    (default_exception_handler (Exc.otherError msg) job).countP Event.isLogWarning = 1
    ∧ (default_exception_handler (Exc.otherError msg) job).filter Event.isFailJob
        = [Event.failJob job.key job.retries (Exc.toMessage (Exc.otherError msg))]
    ∧ (default_exception_handler (Exc.otherError msg) job).countP Event.isFailJob = 1 := by
  refine ⟨?_, ?_, ?_⟩ <;>
    simp [default_exception_handler, JobController.setFailureStatus, Exc.toMessage,
      List.countP_cons, List.countP_nil, List.filter, Event.isFailJob, Event.isLogWarning]


/-! ### C1: registry operation sequences -/

/-- Unwrap a registry result: `some` on success, `none` on error. -/
def exceptOk {α : Type} (e : Except RegistryError α) : Option α :=
  match e with
  | .ok a => some a
  | .error _ => none

/-- An operation of a `task` / `remove_task` sequence (registrations use no
explicit `variables_to_fetch` and no task-level exception handler). -/
inductive RegistryOp where
  | taskOp (taskType : String) (fn : HandlerFunction)
  | removeTaskOp (taskType : String)

/-- The task type an operation is about. -/
def RegistryOp.opType : RegistryOp → String
  | .taskOp ty _ => ty
  | .removeTaskOp ty => ty

/-- Whether an operation is a registration. -/
def RegistryOp.isRegistration : RegistryOp → Bool
  | .taskOp _ _ => true
  | .removeTaskOp _ => false

/-- Apply one operation to the registry; a failing operation (duplicate
registration, removal of an absent type) leaves the registry unchanged. -/
def applyOp (r : ZeebeTaskRouter) (op : RegistryOp) : ZeebeTaskRouter :=
  match op with
  | .taskOp ty fn =>
      match r.task ty fn none none with
      | .ok r1 => r1
      | .error _ => r
  | .removeTaskOp ty =>
      match r.removeTask ty with
      | .ok (_, r1) => r1
      | .error _ => r

/-- Apply a sequence of operations from left to right. -/
def applyOps (r : ZeebeTaskRouter) (ops : List RegistryOp) : ZeebeTaskRouter :=
  ops.foldl applyOp r

/-- The last operation of the sequence that is about type `t`. -/
def lastOpOn (ops : List RegistryOp) (t : String) : Option RegistryOp :=
  ops.reverse.find? (fun op => op.opType == t)

/-- Reference semantics of an operation sequence for one type `t`: the task of
type `t` the registry holds after the sequence, threaded through an
accumulator (a duplicate registration keeps the earlier task). -/
def specAux (t : String) : List RegistryOp → Option Task → Option Task
  | [], cur => cur
  | .taskOp ty fn :: rest, cur =>
      specAux t rest
        (if ty == t then
          match cur with
          | some tk => some tk
          | none => some (ZeebeTaskRouter.buildTask none ty fn none none)
        else cur)
  | .removeTaskOp ty :: rest, cur =>
      specAux t rest (if ty == t then none else cur)

/-- Filtering out every match leaves no match to find. -/
theorem find?_filter_not_self {α : Type} (p : α → Bool) (l : List α) :
    (l.filter (fun x => !(p x))).find? p = none := by
  rw [List.find?_eq_none]
  intro x hx
  rcases List.mem_filter.mp hx with ⟨_, hnp⟩
  simp only [Bool.not_eq_true'] at hnp
  simp [hnp]

/-- Filtering out matches of a disjoint predicate does not change what is
found. -/
theorem find?_filter_not_other {α : Type} (p q : α → Bool) (l : List α)
    (h : ∀ x, p x = true → q x = false) :
    (l.filter (fun x => !(q x))).find? p = l.find? p := by
  induction l with
  | nil => rfl
  | cons a tl ih =>
    by_cases hpa : p a = true
    · have hqa := h a hpa
      simp [List.filter_cons, hqa, List.find?_cons, hpa, ih]
    · by_cases hqa : q a = true <;>
        simp [List.filter_cons, hqa, List.find?_cons, hpa, ih]

/-- A found element witnesses `any`. -/
theorem any_of_find?_some {α : Type} (p : α → Bool) (l : List α) (x : α)
    (h : l.find? p = some x) : l.any p = true :=
  List.any_eq_true.mpr ⟨x, List.mem_of_find?_eq_some h, List.find?_some h⟩

/-- An empty search result refutes `any`. -/
theorem any_of_find?_none {α : Type} (p : α → Bool) (l : List α)
    (h : l.find? p = none) : l.any p = false := by
  rw [List.any_eq_false]
  intro x hx
  have := List.find?_eq_none.mp h x hx
  simpa using this

/-- Registry operations never change the registry-level exception handler. -/
theorem applyOp_exceptionHandler (r : ZeebeTaskRouter) (op : RegistryOp) :
    (applyOp r op).exceptionHandler = r.exceptionHandler := by
  cases op with
  | taskOp ty fn =>
    by_cases hdup : (r.tasks.any fun t0 =>
        t0.config.type == (ZeebeTaskRouter.buildTask r.exceptionHandler ty fn none none).config.type) = true <;>
      simp [applyOp, ZeebeTaskRouter.task, ZeebeTaskRouter.addTask, hdup]
  | removeTaskOp ty =>
    cases hfind : r.tasks.find? (fun t0 => t0.config.type == ty) <;>
      simp [applyOp, ZeebeTaskRouter.removeTask, hfind]


/-- Registering type `t` makes a task of type `t` present: the already-present
task when the registration is a rejected duplicate, the newly built task
otherwise. -/
theorem applyOp_task_same (r : ZeebeTaskRouter) (t : String) (fn : HandlerFunction)
    (hEH : r.exceptionHandler = none) :
    exceptOk ((applyOp r (.taskOp t fn)).getTask t)
      = some ((exceptOk (r.getTask t)).getD (ZeebeTaskRouter.buildTask none t fn none none)) := by
  cases hfind : r.tasks.find? (fun t0 => t0.config.type == t) with
  | some tk =>
    have hdup : (r.tasks.any fun t0 =>
        t0.config.type == (ZeebeTaskRouter.buildTask r.exceptionHandler t fn none none).config.type) = true :=
      any_of_find?_some _ _ _ hfind
    simp [applyOp, ZeebeTaskRouter.task, ZeebeTaskRouter.addTask, hdup,
      ZeebeTaskRouter.getTask, hfind, exceptOk]
  | none =>
    have hdup : (r.tasks.any fun t0 =>
        t0.config.type == (ZeebeTaskRouter.buildTask r.exceptionHandler t fn none none).config.type) = false :=
      any_of_find?_none _ _ hfind
    simp only [applyOp, ZeebeTaskRouter.task, ZeebeTaskRouter.addTask, hdup,
      Bool.false_eq_true, if_false]
    simp only [ZeebeTaskRouter.getTask, List.find?_append, hfind, Option.none_or]
    simp [List.find?_cons, ZeebeTaskRouter.buildTask, ZeebeTaskRouter.buildTaskConfig,
      exceptOk, hEH]

/-- Registering another type leaves lookups of `t` unchanged. -/
theorem applyOp_task_other (r : ZeebeTaskRouter) (ty t : String) (fn : HandlerFunction)
    (hne : (ty == t) = false) :
    (applyOp r (.taskOp ty fn)).getTask t = r.getTask t := by
  by_cases hdup : (r.tasks.any fun t0 =>
      t0.config.type == (ZeebeTaskRouter.buildTask r.exceptionHandler ty fn none none).config.type) = true
  · simp [applyOp, ZeebeTaskRouter.task, ZeebeTaskRouter.addTask, hdup]
  · simp only [applyOp, ZeebeTaskRouter.task, ZeebeTaskRouter.addTask, hdup,
      Bool.false_eq_true, if_false]
    simp [ZeebeTaskRouter.getTask, List.find?_append, List.find?_cons,
      ZeebeTaskRouter.buildTask, ZeebeTaskRouter.buildTaskConfig, hne]

/-- Removing type `t` makes lookups of `t` fail. -/
theorem applyOp_remove_same (r : ZeebeTaskRouter) (t : String) :
    (applyOp r (.removeTaskOp t)).getTask t = Except.error RegistryError.taskNotFoundError := by
  cases hfind : r.tasks.find? (fun t0 => t0.config.type == t) with
  | some tk =>
    simp only [applyOp, ZeebeTaskRouter.removeTask, hfind]
    unfold ZeebeTaskRouter.getTask
    rw [find?_filter_not_self]
  | none =>
    simp [applyOp, ZeebeTaskRouter.removeTask, hfind, ZeebeTaskRouter.getTask]

/-- Removing another type leaves lookups of `t` unchanged. -/
theorem applyOp_remove_other (r : ZeebeTaskRouter) (ty t : String)
    (hne : (ty == t) = false) :
    (applyOp r (.removeTaskOp ty)).getTask t = r.getTask t := by
  cases hfind : r.tasks.find? (fun t0 => t0.config.type == ty) with
  | some tk =>
    simp only [applyOp, ZeebeTaskRouter.removeTask, hfind]
    unfold ZeebeTaskRouter.getTask
    rw [find?_filter_not_other]
    intro x hx
    have hxt : x.config.type = t := by simpa using hx
    rw [hxt]
    rw [beq_eq_false_iff_ne] at hne ⊢
    exact fun h0 => hne h0.symm
  | none =>
    simp [applyOp, ZeebeTaskRouter.removeTask, hfind]


/-- Running an operation sequence and then looking up `t` agrees with the
reference semantics `specAux`. -/
theorem applyOps_getTask (t : String) (ops : List RegistryOp) :
    ∀ r : ZeebeTaskRouter, r.exceptionHandler = none →
      exceptOk ((applyOps r ops).getTask t) = specAux t ops (exceptOk (r.getTask t)) := by
  induction ops with
  | nil =>
    intro r _
    rfl
  | cons op rest ih =>
    intro r hEH
    have hEH1 : (applyOp r op).exceptionHandler = none := by
      rw [applyOp_exceptionHandler]
      exact hEH
    have hmain : exceptOk ((applyOps r (op :: rest)).getTask t)
        = specAux t rest (exceptOk ((applyOp r op).getTask t)) := ih (applyOp r op) hEH1
    rw [hmain]
    cases op with
    | taskOp ty fn =>
      by_cases hty : (ty == t) = true
      · have hty2 : ty = t := eq_of_beq hty
        subst hty2
        rw [applyOp_task_same r ty fn hEH]
        simp only [specAux, RegistryOp.opType, beq_self_eq_true, if_true]
        cases hcur : exceptOk (r.getTask ty) <;> rfl
      · have hty3 : (ty == t) = false := by simpa using hty
        rw [applyOp_task_other r ty t fn hty3]
        simp only [specAux, hty3, Bool.false_eq_true, if_false]
    | removeTaskOp ty =>
      by_cases hty : (ty == t) = true
      · have hty2 : ty = t := eq_of_beq hty
        subst hty2
        rw [applyOp_remove_same r ty]
        simp only [specAux, beq_self_eq_true, if_true]
        rfl
      · have hty3 : (ty == t) = false := by simpa using hty
        rw [applyOp_remove_other r ty t hty3]
        simp only [specAux, hty3, Bool.false_eq_true, if_false]

/-- The reference semantics holds a task exactly when the last operation on the
type was a registration (and, absent any operation on the type, when the
initial accumulator held one). -/
theorem specAux_isSome (t : String) (ops : List RegistryOp) :
    ∀ cur : Option Task,
      (specAux t ops cur).isSome
        = ((lastOpOn ops t).map RegistryOp.isRegistration).getD cur.isSome := by
  induction ops with
  | nil =>
    intro cur
    rfl
  | cons op rest ih =>
    intro cur
    have hlast : lastOpOn (op :: rest) t
        = (lastOpOn rest t).or (if op.opType == t then some op else none) := by
      cases hp : (op.opType == t) <;>
        simp [lastOpOn, List.find?_append, List.find?_cons, hp]
    cases op with
    | taskOp ty fn =>
      by_cases hp : (ty == t) = true
      · simp only [specAux, hp, if_true]
        rw [ih, hlast]
        cases hrest : lastOpOn rest t with
        | some op2 => simp [RegistryOp.opType, hp, Option.or]
        | none =>
          simp only [RegistryOp.opType, hp, if_true, Option.or, Option.map, Option.getD,
            RegistryOp.isRegistration]
          cases cur <;> rfl
      · have hp3 : (ty == t) = false := by simpa using hp
        simp only [specAux, hp3, Bool.false_eq_true, if_false]
        rw [ih, hlast]
        simp [RegistryOp.opType, hp3, Option.or_none]
    | removeTaskOp ty =>
      by_cases hp : (ty == t) = true
      · simp only [specAux, hp, if_true]
        rw [ih, hlast]
        cases hrest : lastOpOn rest t with
        | some op2 => simp [RegistryOp.opType, hp, Option.or]
        | none =>
          simp [RegistryOp.opType, hp, Option.or, RegistryOp.isRegistration]
      · have hp3 : (ty == t) = false := by simpa using hp
        simp only [specAux, hp3, Bool.false_eq_true, if_false]
        rw [ih, hlast]
        simp [RegistryOp.opType, hp3, Option.or_none]

/-- When no task of type `t` is present, both `get_task` and `remove_task`
fail with `TaskNotFoundError`. -/
theorem lookup_absent (r : ZeebeTaskRouter) (t : String)
    (h : exceptOk (r.getTask t) = none) :
    r.getTask t = Except.error RegistryError.taskNotFoundError
    ∧ r.removeTask t = Except.error RegistryError.taskNotFoundError := by
  cases hfind : r.tasks.find? (fun t0 => t0.config.type == t) with
  | some tk => simp [ZeebeTaskRouter.getTask, hfind, exceptOk] at h
  | none => simp [ZeebeTaskRouter.getTask, ZeebeTaskRouter.removeTask, hfind]

/-- When a task of type `t` is present, registering the type again fails with
`DuplicateTaskTypeError`. -/
theorem task_duplicate_of_present (r : ZeebeTaskRouter) (t : String) (fn : HandlerFunction)
    (h : (exceptOk (r.getTask t)).isSome = true) :
    r.task t fn none none = Except.error RegistryError.duplicateTaskTypeError := by
  cases hfind : r.tasks.find? (fun t0 => t0.config.type == t) with
  | none => simp [ZeebeTaskRouter.getTask, hfind, exceptOk] at h
  | some tk =>
    have hdup := any_of_find?_some _ _ _ hfind
    simp [ZeebeTaskRouter.task, ZeebeTaskRouter.addTask, ZeebeTaskRouter.buildTask,
      ZeebeTaskRouter.buildTaskConfig, hdup]

/-- C1: over any `task` / `remove_task` sequence from a fresh registry,
`get_task(t)` succeeds and returns the registered task (per the reference
semantics) exactly when the last operation on `t` was a registration;
`get_task` and `remove_task` on an absent type fail with `TaskNotFoundError`,
and registering an already-registered type fails with
`DuplicateTaskTypeError`. -/
theorem C1_registry_sequences (ops : List RegistryOp) (t : String) (fn : HandlerFunction) :
    (exceptOk ((applyOps ZeebeTaskRouter.empty ops).getTask t) = specAux t ops none)
    ∧ ((specAux t ops none).isSome = (lastOpOn ops t).any RegistryOp.isRegistration)
    ∧ (specAux t ops none = none →
        (applyOps ZeebeTaskRouter.empty ops).getTask t
            = Except.error RegistryError.taskNotFoundError
        ∧ (applyOps ZeebeTaskRouter.empty ops).removeTask t
            = Except.error RegistryError.taskNotFoundError)
    ∧ ((specAux t ops none).isSome = true →
        (applyOps ZeebeTaskRouter.empty ops).task t fn none none
          = Except.error RegistryError.duplicateTaskTypeError) := by
  have hmain : exceptOk ((applyOps ZeebeTaskRouter.empty ops).getTask t) = specAux t ops none :=
    applyOps_getTask t ops ZeebeTaskRouter.empty rfl
  refine ⟨hmain, ?_, ?_, ?_⟩
  · rw [specAux_isSome]
    cases lastOpOn ops t <;> rfl
  · intro hnone
    have hboth := lookup_absent (applyOps ZeebeTaskRouter.empty ops) t (hmain.trans hnone)
    exact hboth
  · intro hsome
    exact task_duplicate_of_present (applyOps ZeebeTaskRouter.empty ops) t fn
      (by rw [hmain]; exact hsome)

/-- Witness for C1: a duplicate registration is rejected, and after a removal
the lookup fails. -/
theorem C1_registry_sequences_witness :
    ((applyOps ZeebeTaskRouter.empty [RegistryOp.taskOp "a" fnOk]).task "a" fnOk none none
        = Except.error RegistryError.duplicateTaskTypeError)
    ∧ ((applyOps ZeebeTaskRouter.empty
          [RegistryOp.taskOp "a" fnOk, RegistryOp.removeTaskOp "a"]).getTask "a"
        = Except.error RegistryError.taskNotFoundError) :=
  ⟨(C1_registry_sequences [RegistryOp.taskOp "a" fnOk] "a" fnOk).2.2.2 (by rfl),
   ((C1_registry_sequences [RegistryOp.taskOp "a" fnOk, RegistryOp.removeTaskOp "a"]
      "a" fnOk).2.2.1 (by rfl)).1⟩


/-! ### C6: including multiple routers -/

/-- A router holding exactly one task, obtained by registering `fn` under `ty`
on a fresh registry. -/
def singletonRouter (ty : String) (fn : HandlerFunction) : ZeebeTaskRouter :=
  applyOp ZeebeTaskRouter.empty (.taskOp ty fn)

/-- Include a list of routers into a parent, left to right. -/
def includeAll (parent : ZeebeTaskRouter) (rs : List ZeebeTaskRouter) :
    Except RegistryError ZeebeTaskRouter :=
  rs.foldlM ZeebeTaskRouter.includeRouter parent

/-- No task of type `ty` in the list refutes the duplicate check. -/
theorem any_type_eq_false (l : List Task) (ty : String) (h : ¬ ty ∈ l.map Task.type) :
    (l.any fun t0 => t0.config.type == ty) = false := by
  rw [List.any_eq_false]
  intro x hx hbeq
  exact h (List.mem_map.mpr ⟨x, hx, eq_of_beq hbeq⟩)

/-- Including a one-task child appends the merged task to the parent when the
type is not yet taken. -/
theorem includeRouter_singleton_child (p c : ZeebeTaskRouter) (t : Task)
    (hc : c.tasks = [t])
    (hdup : (p.tasks.any fun t0 =>
      t0.config.type == (ZeebeTaskRouter.mergeAtInclusion p c t).config.type) = false) :
    p.includeRouter c
      = Except.ok { p with tasks := p.tasks ++ [p.mergeAtInclusion c t] } := by
  unfold ZeebeTaskRouter.includeRouter
  rw [hc]
  simp only [List.foldlM, ZeebeTaskRouter.addTask, hdup, Bool.false_eq_true, if_false,
    bind, Except.bind, pure, Except.pure]

/-- A type present among a registry's task types is retrievable. -/
theorem getTask_isOk_of_mem_types (w : ZeebeTaskRouter) (ty : String)
    (h : ty ∈ w.tasks.map Task.type) : ∃ tk, w.getTask ty = Except.ok tk := by
  rcases List.mem_map.mp h with ⟨x, hx, hxty⟩
  have hsome : (w.tasks.find? (fun t0 => t0.config.type == ty)).isSome := by
    rw [List.find?_isSome]
    exact ⟨x, hx, by simp [Task.type] at hxty; simp [hxty]⟩
  rcases Option.isSome_iff_exists.mp hsome with ⟨tk, htk⟩
  exact ⟨tk, by simp [ZeebeTaskRouter.getTask, htk]⟩

/-- Folding `include_router` over singleton routers with fresh, pairwise
distinct types succeeds and appends one merged task per router. -/
theorem includeAll_singletons (pairs : List (String × HandlerFunction)) :
    ∀ parent : ZeebeTaskRouter,
      (∀ p ∈ pairs, ¬ p.1 ∈ parent.tasks.map Task.type) →
      (pairs.map Prod.fst).Nodup →
      ∃ w, includeAll parent (pairs.map fun p => singletonRouter p.1 p.2) = Except.ok w
        ∧ w.tasks.map Task.type = parent.tasks.map Task.type ++ pairs.map Prod.fst := by
  induction pairs with
  | nil =>
    intro parent _ _
    exact ⟨parent, rfl, by simp⟩
  | cons p rest ih =>
    intro parent hdisj hnodup
    have hp1 := hdisj p (List.mem_cons_self _ _)
    have hany := any_type_eq_false parent.tasks p.1 hp1
    have hstep := includeRouter_singleton_child parent (singletonRouter p.1 p.2)
      (ZeebeTaskRouter.buildTask none p.1 p.2 none none) rfl hany
    rcases List.nodup_cons.mp hnodup with ⟨hnotin, hrest⟩
    have hdisj2 : ∀ q ∈ rest,
        ¬ q.1 ∈ ({ parent with tasks := parent.tasks ++
          [parent.mergeAtInclusion (singletonRouter p.1 p.2)
            (ZeebeTaskRouter.buildTask none p.1 p.2 none none)] } :
              ZeebeTaskRouter).tasks.map Task.type := by
      intro q hq hmem
      simp only [List.map_append, List.mem_append] at hmem
      rcases hmem with hmem | hmem
      · exact hdisj q (List.mem_cons_of_mem _ hq) hmem
      · simp [Task.type, ZeebeTaskRouter.mergeAtInclusion, ZeebeTaskRouter.buildTask,
          ZeebeTaskRouter.buildTaskConfig] at hmem
        exact hnotin (hmem ▸ List.mem_map.mpr ⟨q, hq, rfl⟩)
    rcases ih _ hdisj2 hrest with ⟨w, hw, htypes⟩
    refine ⟨w, ?_, ?_⟩
    · show List.foldlM ZeebeTaskRouter.includeRouter parent
        (List.map (fun q => singletonRouter q.1 q.2) (p :: rest)) = Except.ok w
      rw [List.map_cons]
      rw [List.foldlM_cons]
      rw [hstep]
      simpa [bind, Except.bind, includeAll] using hw
    · rw [htypes]
      simp [Task.type, ZeebeTaskRouter.mergeAtInclusion, ZeebeTaskRouter.buildTask,
        ZeebeTaskRouter.buildTaskConfig]

/-- C6: including `n` one-task routers with pairwise distinct types into a
fresh worker succeeds, the worker then holds exactly `n` tasks, and each
included task is retrievable by its type. -/
theorem C6_include_multiple_routers (pairs : List (String × HandlerFunction))
    (hnodup : (pairs.map Prod.fst).Nodup) :
    ((includeAll ZeebeTaskRouter.empty (pairs.map fun p => singletonRouter p.1 p.2)).map
        (fun w => w.tasks.length) = Except.ok pairs.length)
    ∧ ∀ p ∈ pairs,
        (includeAll ZeebeTaskRouter.empty (pairs.map fun q => singletonRouter q.1 q.2)).map
          (fun w => (w.getTask p.1).isOk) = Except.ok true := by
  rcases includeAll_singletons pairs ZeebeTaskRouter.empty (by simp [ZeebeTaskRouter.empty])
    hnodup with ⟨w, hw, htypes⟩
  constructor
  · rw [hw]
    have hlen : w.tasks.length = pairs.length := by
      have := congrArg List.length htypes
      simpa [ZeebeTaskRouter.empty] using this
    simp [Except.map, hlen]
  · intro p hp
    rw [hw]
    have hmem : p.1 ∈ w.tasks.map Task.type := by
      rw [htypes]
      simp only [ZeebeTaskRouter.empty, List.map_nil, List.nil_append]
      exact List.mem_map.mpr ⟨p, hp, rfl⟩
    rcases getTask_isOk_of_mem_types w p.1 hmem with ⟨tk, htk⟩
    simp [Except.map, htk, Except.isOk, Except.toBool]

/-- Witness for C6: two singleton routers with distinct types. -/
theorem C6_include_multiple_routers_witness :
    (includeAll ZeebeTaskRouter.empty
        ([("a", fnOk), ("b", fnOk)].map fun p => singletonRouter p.1 p.2)).map
      (fun w => w.tasks.length) = Except.ok ([("a", fnOk), ("b", fnOk)].length) :=
  (C6_include_multiple_routers [("a", fnOk), ("b", fnOk)] (by simp)).1


/-! ### Client and gateway adapter -/

/-- Errors surfaced by client operations (the spec's error taxonomy, narrowed
to the errors these claims exercise). -/
inductive ZeebeError where
  | processDefinitionNotFoundError
  | processInstanceNotFoundError
  | messageAlreadyExistsError
  deriving DecidableEq, Repr

/-- A request the adapter issues to the gateway, as forwarded by the client. -/
inductive AdapterRequest where
  | createProcessInstance (bpmnProcessId : String) (vs : Vars) (version : Int)
  | createProcessInstanceWithResult (bpmnProcessId : String) (vs : Vars) (version : Int)
      (timeout : Int) (variablesToFetch : List String)
  | cancelProcessInstance (processInstanceKey : Int)
  | publishMessage (name : String) (correlationKey : String) (timeToLiveMs : Int)
      (vs : Vars) (messageId : Option String)
  deriving DecidableEq, Repr

/-- Modelled from the spec: the gateway-side state observed by the adapter's
unary calls (`pyzeebe.grpc_internals.zeebe_adapter`, not under `src/`) —
deployed process ids, running instance keys, still-active message ids, and the
log of issued requests. -/
structure GatewayState where
  deployedProcesses : List String
  nextKey : Int
  instances : List Int
  activeMessageIds : List String
  requests : List AdapterRequest
  deriving DecidableEq, Repr

namespace ZeebeAdapter

/-- Modelled from the spec: `create_process_instance(bpmn_id, variables,
version)` fails with the process-definition-not-found error for an unknown
process id, otherwise starts a fresh instance and returns its key. -/
def create_process_instance (st : GatewayState) (bpmnProcessId : String) (vs : Vars)
    (version : Int) : Except ZeebeError (GatewayState × Int) :=
  if st.deployedProcesses.contains bpmnProcessId then
    .ok ({ st with
      nextKey := st.nextKey + 1
      instances := st.nextKey :: st.instances
      requests := .createProcessInstance bpmnProcessId vs version :: st.requests }, st.nextKey)
  else
    .error .processDefinitionNotFoundError

/-- Modelled from the spec: `create_process_instance_with_result` — as
`create_process_instance`, additionally waiting for the end-state variables
(modelled as an empty mapping). -/
def create_process_instance_with_result (st : GatewayState) (bpmnProcessId : String)
    (vs : Vars) (version : Int) (timeout : Int) (variablesToFetch : List String) :
    Except ZeebeError (GatewayState × Int × Vars) :=
  if st.deployedProcesses.contains bpmnProcessId then
    .ok ({ st with
      nextKey := st.nextKey + 1
      requests := .createProcessInstanceWithResult bpmnProcessId vs version timeout
        variablesToFetch :: st.requests }, st.nextKey, [])
  else
    .error .processDefinitionNotFoundError

/-- Modelled from the spec: `cancel_process_instance(key)` fails with the
process-instance-not-found error when no such instance runs, otherwise stops
it. -/
def cancel_process_instance (st : GatewayState) (processInstanceKey : Int) :
    Except ZeebeError GatewayState :=
  if st.instances.contains processInstanceKey then
    .ok { st with
      instances := st.instances.filter (fun k => !(k == processInstanceKey))
      requests := .cancelProcessInstance processInstanceKey :: st.requests }
  else
    .error .processInstanceNotFoundError

/-- Modelled from the spec: `publish_message` — a message id that is still
active collides and fails with the message-already-exists error; a fresh id
(or no id) publishes and, when given, stays active. -/
def publish_message (st : GatewayState) (name correlationKey : String)
    (timeToLiveMs : Int) (vs : Vars) (messageId : Option String) :
    Except ZeebeError GatewayState :=
  match messageId with
  | some id =>
      if st.activeMessageIds.contains id then
        .error .messageAlreadyExistsError
      else
        .ok { st with
          activeMessageIds := id :: st.activeMessageIds
          requests := .publishMessage name correlationKey timeToLiveMs vs (some id) :: st.requests }
  | none =>
      .ok { st with
        requests := .publishMessage name correlationKey timeToLiveMs vs none :: st.requests }

end ZeebeAdapter

namespace ZeebeClient

/-- Translated from `pyzeebe/client/client.py` (`ZeebeClient.run_process`):
forwards `variables or {}` to `create_process_instance`. -/
def run_process (st : GatewayState) (bpmnProcessId : String) (vso : Option Vars)
    (version : Int) : Except ZeebeError (GatewayState × Int) :=
  ZeebeAdapter.create_process_instance st bpmnProcessId (vso.getD []) version

/-- Translated from `pyzeebe/client/client.py`
(`ZeebeClient.run_process_with_result`): forwards `variables or {}` and
`variables_to_fetch or []`. -/
def run_process_with_result (st : GatewayState) (bpmnProcessId : String)
    (vso : Option Vars) (version : Int) (timeout : Int) (vtf : Option (List String)) :
    Except ZeebeError (GatewayState × Int × Vars) :=
  ZeebeAdapter.create_process_instance_with_result st bpmnProcessId (vso.getD []) version
    timeout (vtf.getD [])

/-- Translated from `pyzeebe/client/client.py`
(`ZeebeClient.cancel_process_instance`): forwards to the adapter and returns
the given key. -/
def cancel_process_instance (st : GatewayState) (processInstanceKey : Int) :
    Except ZeebeError (GatewayState × Int) :=
  match ZeebeAdapter.cancel_process_instance st processInstanceKey with
  | .ok st1 => .ok (st1, processInstanceKey)
  | .error e => .error e

/-- Translated from `pyzeebe/client/client.py` (`ZeebeClient.publish_message`):
forwards `variables or {}` and the optional message id. -/
def publish_message (st : GatewayState) (name correlationKey : String)
    (vso : Option Vars) (timeToLiveMs : Int) (messageId : Option String) :
    Except ZeebeError GatewayState :=
  ZeebeAdapter.publish_message st name correlationKey timeToLiveMs (vso.getD []) messageId

end ZeebeClient

/-! ### C9: duplicate message id -/

/-- C9: publishing twice in succession with the same message id while the
first message is still active: the first call succeeds and the second fails
with the message-already-exists error. -/
theorem C9_publish_message_duplicate (st : GatewayState) (name ck : String)
    (vso1 vso2 : Option Vars) (ttl1 ttl2 : Int) (id : String)
    (hfresh : st.activeMessageIds.contains id = false) :
    ZeebeClient.publish_message st name ck vso1 ttl1 (some id)
      = Except.ok { st with
          activeMessageIds := id :: st.activeMessageIds
          requests := AdapterRequest.publishMessage name ck ttl1 (vso1.getD []) (some id)
            :: st.requests }
    ∧ ZeebeClient.publish_message
        { st with
          activeMessageIds := id :: st.activeMessageIds
          requests := AdapterRequest.publishMessage name ck ttl1 (vso1.getD []) (some id)
            :: st.requests }
        name ck vso2 ttl2 (some id)
      = Except.error ZeebeError.messageAlreadyExistsError := by
  have hfresh2 : ¬ id ∈ st.activeMessageIds := by simpa using hfresh
  constructor <;>
    simp [ZeebeClient.publish_message, ZeebeAdapter.publish_message, hfresh2, List.contains_cons]

/-- A fresh gateway state used by witnesses. -/
def gw0 : GatewayState :=
  { deployedProcesses := ["p"], nextKey := 1, instances := [5],
    activeMessageIds := [], requests := [] }

/-- Witness for C9 at a concrete pair of calls. -/
theorem C9_publish_message_duplicate_witness :
    ZeebeClient.publish_message gw0 "m" "k" none 60000 (some "id1")
      = Except.ok { gw0 with
          activeMessageIds := "id1" :: gw0.activeMessageIds
          requests := AdapterRequest.publishMessage "m" "k" 60000 [] (some "id1")
            :: gw0.requests }
    ∧ ZeebeClient.publish_message
        { gw0 with
          activeMessageIds := "id1" :: gw0.activeMessageIds
          requests := AdapterRequest.publishMessage "m" "k" 60000 [] (some "id1")
            :: gw0.requests }
        "m" "k" none 60000 (some "id1")
      = Except.error ZeebeError.messageAlreadyExistsError :=
  C9_publish_message_duplicate gw0 "m" "k" none none 60000 60000 "id1" rfl

/-! ### C10: the client facade forwards faithfully -/

/-- C10: `cancel_process_instance` returns exactly the key it was given
whenever the adapter call succeeds, and `run_process`,
`run_process_with_result` and `publish_message` forward an empty variable
mapping to the adapter when called with no variables. -/
theorem C10_client_facade (st st1 : GatewayState) (key : Int) (bpmnProcessId : String)
    (version timeToLiveMs timeout : Int) (name ck : String) (messageId : Option String)
    (vtf : Option (List String))
    (hcancel : ZeebeAdapter.cancel_process_instance st key = Except.ok st1) :
    ZeebeClient.cancel_process_instance st key = Except.ok (st1, key)
    ∧ ZeebeClient.run_process st bpmnProcessId none version
        = ZeebeAdapter.create_process_instance st bpmnProcessId [] version
    ∧ ZeebeClient.run_process_with_result st bpmnProcessId none version timeout vtf
        = ZeebeAdapter.create_process_instance_with_result st bpmnProcessId [] version
            timeout (vtf.getD [])
    ∧ ZeebeClient.publish_message st name ck none timeToLiveMs messageId
        = ZeebeAdapter.publish_message st name ck timeToLiveMs [] messageId :=
  ⟨by simp [ZeebeClient.cancel_process_instance, hcancel], rfl, rfl, rfl⟩

/-- Witness for C10 at a concrete state in which the cancellation succeeds. -/
theorem C10_client_facade_witness :
    ZeebeClient.cancel_process_instance gw0 5
      = Except.ok ({ gw0 with
          instances := []
          requests := [AdapterRequest.cancelProcessInstance 5] }, 5)
    ∧ ZeebeClient.run_process gw0 "p" none (-1)
        = ZeebeAdapter.create_process_instance gw0 "p" [] (-1)
    ∧ ZeebeClient.run_process_with_result gw0 "p" none (-1) 0 none
        = ZeebeAdapter.create_process_instance_with_result gw0 "p" [] (-1) 0
            ((none : Option (List String)).getD [])
    ∧ ZeebeClient.publish_message gw0 "m" "k" none 60000 none
        = ZeebeAdapter.publish_message gw0 "m" "k" 60000 [] none :=
  C10_client_facade gw0
    { gw0 with instances := [], requests := [AdapterRequest.cancelProcessInstance 5] }
    5 "p" (-1) 60000 0 "m" "k" none none (by rfl)

end PyZeebe
